import Mathlib

/-!
A shallow embedding of the tarot reading service (`src/main.py`) and proofs
about its reading-generation pipeline: the card catalog, the spread catalog,
the draw engine, the interpretation formatter, the reading store, and the two
HTTP handlers `create_reading` and `get_reading`.

Randomness (`random.sample`, `random.choice`) and the clock are modelled as
explicit parameters; the documented contract of `random.sample` (a sample of
the requested size drawn without replacement from the population) appears as a
hypothesis on those parameters.  Python exceptions are modelled with `Option`
and `Except`; the `try/except` structure of the handlers is translated
branch by branch, including the fact that `except Exception` catches the
`HTTPException`s raised inside the same `try` block.
-/

set_option autoImplicit false

namespace TarotMain

/-- The `TarotCard` pydantic model: one card record of the deck. -/
structure TarotCard where
  name : String
  number : Option Int := none
  suit : Option String := none
  element : Option String := none
  meaning_upright : String
  meaning_reversed : String
  golden_dawn_correspondence : String
  hebrew_letter : Option String := none
  astrological_correspondence : Option String := none
  tree_of_life_path : Option Int := none
deriving DecidableEq, Repr, Inhabited

/-- The `TarotSpread` pydantic model: a named layout of card positions. -/
structure TarotSpread where
  name : String
  positions : List String
  description : String
  card_count : Nat
deriving DecidableEq, Repr, Inhabited

/-- One entry of the `result` list built by `draw_cards`: the dict
`{"card": ..., "reversed": ..., "meaning": ..., "orientation": ...}`. -/
structure DrawnCard where
  card : TarotCard
  reversed : Bool
  meaning : String
  orientation : String
deriving DecidableEq, Repr, Inhabited

/-- The `TarotReading` pydantic model: the unit of persistence. -/
structure TarotReading where
  spread_type : String
  question : Option String
  cards_drawn : List DrawnCard
  interpretation : String
  timestamp : String
  reading_id : String
deriving DecidableEq, Repr, Inhabited

/-- The `ReadingRequest` pydantic model (the `POST /reading` body).  The
`user_birth_info` field (`Optional[Dict[str, Any]]`) is accepted by the code
and never read anywhere, so it is left out of the embedding. -/
structure ReadingRequest where
  question : Option String := none
  spread_type : String := "three_card"
  include_reversed : Bool := true
  deck_type : String := "golden_dawn"
  interpretation_style : String := "traditional"
deriving DecidableEq, Repr, Inhabited

/-- The `"major_arcana"` entry of `GOLDEN_DAWN_DECK` (the source file defines
only the first 13 of the 22 major arcana; the rest are a code comment). -/
def major_arcana : List TarotCard := [
  { name := "The Fool", number := some 0, element := some "Air",
    meaning_upright := "New beginnings, innocence, spontaneity, free spirit",
    meaning_reversed := "Recklessness, taken advantage of, inconsistency, foolishness",
    golden_dawn_correspondence := "Path of Aleph, Air element, Uranus",
    hebrew_letter := some "Aleph", tree_of_life_path := some 11,
    astrological_correspondence := some "Uranus" },
  { name := "The Magician", number := some 1, element := some "Air",
    meaning_upright := "Manifestation, resourcefulness, power, inspired action",
    meaning_reversed := "Manipulation, poor planning, untapped talents",
    golden_dawn_correspondence := "Path of Beth, Mercury, Magus of Power",
    hebrew_letter := some "Beth", tree_of_life_path := some 12,
    astrological_correspondence := some "Mercury" },
  { name := "The High Priestess", number := some 2, element := some "Water",
    meaning_upright := "Intuition, sacred knowledge, divine feminine, subconscious mind",
    meaning_reversed := "Secrets, disconnected from intuition, withdrawal",
    golden_dawn_correspondence := "Path of Gimel, Moon, Priestess of Silver Star",
    hebrew_letter := some "Gimel", tree_of_life_path := some 13,
    astrological_correspondence := some "Moon" },
  { name := "The Empress", number := some 3, element := some "Earth",
    meaning_upright := "Femininity, beauty, nature, nurturing, abundance",
    meaning_reversed := "Creative block, dependence on others, smothering",
    golden_dawn_correspondence := "Path of Daleth, Venus, Daughter of Mighty Ones",
    hebrew_letter := some "Daleth", tree_of_life_path := some 14,
    astrological_correspondence := some "Venus" },
  { name := "The Emperor", number := some 4, element := some "Fire",
    meaning_upright := "Authority, establishment, structure, father figure",
    meaning_reversed := "Domination, excessive control, lack of discipline",
    golden_dawn_correspondence := "Path of Heh, Aries, Son of Morning",
    hebrew_letter := some "Heh", tree_of_life_path := some 15,
    astrological_correspondence := some "Aries" },
  { name := "The Hierophant", number := some 5, element := some "Earth",
    meaning_upright := "Spiritual wisdom, religious beliefs, conformity, tradition",
    meaning_reversed := "Personal beliefs, freedom, challenging the status quo",
    golden_dawn_correspondence := "Path of Vav, Taurus, Magus of Eternal",
    hebrew_letter := some "Vav", tree_of_life_path := some 16,
    astrological_correspondence := some "Taurus" },
  { name := "The Lovers", number := some 6, element := some "Air",
    meaning_upright := "Love, harmony, relationships, values alignment",
    meaning_reversed := "Disharmony, imbalance, misaligned values",
    golden_dawn_correspondence := "Path of Zayin, Gemini, Children of Voice",
    hebrew_letter := some "Zayin", tree_of_life_path := some 17,
    astrological_correspondence := some "Gemini" },
  { name := "The Chariot", number := some 7, element := some "Water",
    meaning_upright := "Control, willpower, success, determination",
    meaning_reversed := "Self-discipline, opposition, lack of direction",
    golden_dawn_correspondence := "Path of Cheth, Cancer, Child of Powers of Waters",
    hebrew_letter := some "Cheth", tree_of_life_path := some 18,
    astrological_correspondence := some "Cancer" },
  { name := "Strength", number := some 8, element := some "Fire",
    meaning_upright := "Strength, courage, persuasion, influence, compassion",
    meaning_reversed := "Self-doubt, low energy, raw emotion",
    golden_dawn_correspondence := "Path of Teth, Leo, Daughter of Flaming Sword",
    hebrew_letter := some "Teth", tree_of_life_path := some 19,
    astrological_correspondence := some "Leo" },
  { name := "The Hermit", number := some 9, element := some "Earth",
    meaning_upright := "Soul searching, introspection, inner guidance",
    meaning_reversed := "Isolation, loneliness, withdrawal",
    golden_dawn_correspondence := "Path of Yod, Virgo, Magus of Voice of Light",
    hebrew_letter := some "Yod", tree_of_life_path := some 20,
    astrological_correspondence := some "Virgo" },
  { name := "Wheel of Fortune", number := some 10, element := some "Fire",
    meaning_upright := "Good luck, karma, life cycles, destiny, turning point",
    meaning_reversed := "Bad luck, lack of control, clinging to control",
    golden_dawn_correspondence := "Path of Kaph, Jupiter, Lord of Forces of Life",
    hebrew_letter := some "Kaph", tree_of_life_path := some 21,
    astrological_correspondence := some "Jupiter" },
  { name := "Justice", number := some 11, element := some "Air",
    meaning_upright := "Justice, fairness, truth, cause and effect, law",
    meaning_reversed := "Unfairness, lack of accountability, dishonesty",
    golden_dawn_correspondence := "Path of Lamed, Libra, Daughter of Lords of Truth",
    hebrew_letter := some "Lamed", tree_of_life_path := some 22,
    astrological_correspondence := some "Libra" },
  { name := "The Hanged Man", number := some 12, element := some "Water",
    meaning_upright := "Suspension, restriction, letting go, sacrifice",
    meaning_reversed := "Martyrdom, indecision, delay",
    golden_dawn_correspondence := "Path of Mem, Water, Spirit of Mighty Waters",
    hebrew_letter := some "Mem", tree_of_life_path := some 23,
    astrological_correspondence := some "Neptune" }]

/-- The `"wands"` entry of `GOLDEN_DAWN_DECK`. -/
def wands : List TarotCard := [
  { name := "Ace of Wands", number := some 1, suit := some "Wands", element := some "Fire",
    meaning_upright := "Inspiration, new opportunities, growth",
    meaning_reversed := "Lack of energy, lack of passion, boredom",
    golden_dawn_correspondence := "Root of Fire, Kether in Fire",
    tree_of_life_path := some 1 }]

/-- The `"cups"` entry of `GOLDEN_DAWN_DECK`. -/
def cups : List TarotCard := [
  { name := "Ace of Cups", number := some 1, suit := some "Cups", element := some "Water",
    meaning_upright := "Love, new relationships, compassion, creativity",
    meaning_reversed := "Self-love, intuition, repressed emotions",
    golden_dawn_correspondence := "Root of Water, Kether in Water",
    tree_of_life_path := some 1 }]

/-- The `"swords"` entry of `GOLDEN_DAWN_DECK`. -/
def swords : List TarotCard := [
  { name := "Ace of Swords", number := some 1, suit := some "Swords", element := some "Air",
    meaning_upright := "New ideas, mental clarity, breakthrough",
    meaning_reversed := "Inner clarity, re-thinking an idea, clouded judgment",
    golden_dawn_correspondence := "Root of Air, Kether in Air",
    tree_of_life_path := some 1 }]

/-- The `"pentacles"` entry of `GOLDEN_DAWN_DECK`. -/
def pentacles : List TarotCard := [
  { name := "Ace of Pentacles", number := some 1, suit := some "Pentacles", element := some "Earth",
    meaning_upright := "New financial opportunity, manifestation, abundance",
    meaning_reversed := "Lost opportunity, lack of planning, poor financial decisions",
    golden_dawn_correspondence := "Root of Earth, Kether in Earth",
    tree_of_life_path := some 1 }]

/-- `GOLDEN_DAWN_DECK`, a dict from category name to card list; Python dicts
preserve insertion order, so an ordered association list is faithful. -/
def GOLDEN_DAWN_DECK : List (String × List TarotCard) :=
  [("major_arcana", major_arcana), ("wands", wands), ("cups", cups),
   ("swords", swords), ("pentacles", pentacles)]

/-- `TarotAIService.get_all_cards`: concatenates `GOLDEN_DAWN_DECK.values()`
in definition order. -/
def get_all_cards : List TarotCard :=
  (GOLDEN_DAWN_DECK.map Prod.snd).flatten

/-- The `"single_card"` spread of `TAROT_SPREADS`. -/
def single_card_spread : TarotSpread :=
  { name := "Single Card"
    positions := ["Guidance"]
    description := "Simple single-card draw for quick guidance"
    card_count := 1 }

/-- The `"three_card"` spread of `TAROT_SPREADS`. -/
def three_card_spread : TarotSpread :=
  { name := "Past, Present, Future"
    positions := ["Past/Foundation", "Present/Challenge", "Future/Outcome"]
    description := "Simple three-card spread for quick insight"
    card_count := 3 }

/-- The `"celtic_cross"` spread of `TAROT_SPREADS`. -/
def celtic_cross_spread : TarotSpread :=
  { name := "Celtic Cross"
    positions := [
      "Present Situation", "Challenge/Cross", "Distant Past/Foundation",
      "Recent Past", "Crown/Possible Outcome", "Immediate Future",
      "Your Approach", "External Influences", "Hopes and Fears", "Final Outcome"]
    description := "The most comprehensive spread, exploring all aspects of your situation"
    card_count := 10 }

/-- The `"tree_of_life"` spread of `TAROT_SPREADS`. -/
def tree_of_life_spread : TarotSpread :=
  { name := "Tree of Life"
    positions := [
      "Kether (Crown)", "Chokmah (Wisdom)", "Binah (Understanding)",
      "Chesed (Mercy)", "Geburah (Severity)", "Tiphareth (Beauty)",
      "Netzach (Victory)", "Hod (Glory)", "Yesod (Foundation)", "Malkuth (Kingdom)"]
    description := "Based on the Kabbalistic Tree of Life, providing deep spiritual insight"
    card_count := 10 }

/-- The `"golden_dawn"` spread of `TAROT_SPREADS`. -/
def golden_dawn_spread : TarotSpread :=
  { name := "Golden Dawn Temple"
    positions := [
      "Present Situation", "Hidden Influences", "Past Foundations",
      "Future Possibilities", "Higher Guidance", "Practical Action",
      "Inner Wisdom", "External Forces", "Final Outcome"]
    description := "Sacred 9-card Golden Dawn spread using all available cards"
    card_count := 9 }

/-- The `"seven_pointed_star"` spread of `TAROT_SPREADS`. -/
def seven_pointed_star_spread : TarotSpread :=
  { name := "Seven-Pointed Star"
    positions := [
      "Self", "Past", "Future", "Hidden Influences",
      "External Forces", "Hopes/Fears", "Final Outcome"]
    description := "Mystical 7-card spread for deep spiritual insight"
    card_count := 7 }

/-- `TAROT_SPREADS`: the spread catalog dict, in insertion order. -/
def TAROT_SPREADS : List (String × TarotSpread) :=
  [("single_card", single_card_spread),
   ("three_card", three_card_spread),
   ("celtic_cross", celtic_cross_spread),
   ("tree_of_life", tree_of_life_spread),
   ("golden_dawn", golden_dawn_spread),
   ("seven_pointed_star", seven_pointed_star_spread)]

/-- `TAROT_SPREADS[spread_type]` as a partial lookup (`in` test / `KeyError`
are modelled by the `Option`). -/
def spreadLookup (spread_type : String) : Option TarotSpread :=
  TAROT_SPREADS.lookup spread_type

/-! ## Draw engine (`TarotAIService.draw_cards`) -/

/-- The clamping step of `draw_cards`: `if count > len(all_cards): count = len(all_cards)`. -/
def clampCount (count : Nat) : Nat :=
  if count > get_all_cards.length then get_all_cards.length else count

/-- The body of the `for card in drawn_cards` loop of `draw_cards`: builds one
result dict from a card, the `include_reversed` flag and the outcome `coin` of
`random.choice([True, False])` (which the code only consults when
`include_reversed` is true). -/
def orientCard (include_reversed : Bool) (coin : Bool) (card : TarotCard) : DrawnCard :=
  let is_reversed := if include_reversed then coin else false
  { card := card
    reversed := is_reversed
    meaning := if is_reversed then card.meaning_reversed else card.meaning_upright
    orientation := if is_reversed then "Reversed" else "Upright" }

/-- `TarotAIService.draw_cards`.  The random sources are explicit parameters:
`sample k` stands for the value of `random.sample(all_cards, k)` and
`coins i` for the `i`-th outcome of `random.choice([True, False])`.  Theorems
assume of `sample` only the documented contract of `random.sample`
(`SampleOk` below). -/
def draw_cards (count : Nat) (include_reversed : Bool)
    (sample : Nat → List TarotCard) (coins : Nat → Bool) : List DrawnCard :=
  let drawn_cards := sample (clampCount count)
  drawn_cards.mapIdx fun i card => orientCard include_reversed (coins i) card

/-- The documented contract of `random.sample(all_cards, k)` for a valid `k`:
the result has `k` elements chosen without replacement from the population
(i.e. it is a permutation of a sublist of `get_all_cards`). -/
def SampleOk (sample : Nat → List TarotCard) : Prop :=
  ∀ k, k ≤ get_all_cards.length →
    (sample k).length = k ∧ List.Subperm (sample k) get_all_cards

/-- A concrete sampler satisfying `SampleOk`, used to instantiate theorems. -/
def takeSample (k : Nat) : List TarotCard :=
  get_all_cards.take k

/-! ## Interpretation formatter (`TarotAIService._generate_basic_interpretation`) -/

/-- The header line `f"Reading for: {question or 'General guidance'}"`: Python
`or` falls through to the default on `None` and on the empty string. -/
def questionText (question : Option String) : String :=
  match question with
  | none => "General guidance"
  | some s => if s = "" then "General guidance" else s

/-- The position label for the card at index `i`:
`spread.positions[i] if i < len(spread.positions) else f"Position {i+1}"`. -/
def posLabel (spread : TarotSpread) (i : Nat) : String :=
  spread.positions.getD i ("Position " ++ toString (i + 1))

/-- The text appended for one card by the loop body of
`_generate_basic_interpretation`. -/
def cardSection (spread : TarotSpread) (i : Nat) (card_info : DrawnCard) : String :=
  "\n" ++ posLabel spread i ++ ": " ++ card_info.card.name ++ " (" ++
    card_info.orientation ++ ")\n" ++ card_info.meaning ++ "\nGolden Dawn: " ++
    card_info.card.golden_dawn_correspondence ++ "\n\n"

/-- The fixed closing paragraph appended after the loop. -/
def closingText : String :=
  "\nThis reading suggests a journey through the archetypes and energies represented by these sacred symbols. Consider how each card\x27s energy applies to your current situation and the guidance it offers for your path forward."

/-- The `for i, card_info in enumerate(cards)` loop of
`_generate_basic_interpretation`: each iteration subscripts
`TAROT_SPREADS[spread_type]`, so an unregistered `spread_type` raises
`KeyError` (modelled by `none`) as soon as an iteration runs. -/
def interpSections (spread_type : String) : Nat → List DrawnCard → Option String
  | _, [] => some ""
  | i, card_info :: rest =>
    match spreadLookup spread_type with
    | none => none
    | some spread =>
      match interpSections spread_type (i + 1) rest with
      | none => none
      | some tail => some (cardSection spread i card_info ++ tail)

/-- `TarotAIService._generate_basic_interpretation`: header, one section per
card, closing paragraph, then `.strip()`.  `none` models the `KeyError`
raised when `spread_type` is not a registered spread and `cards` is
non-empty. -/
def _generate_basic_interpretation (cards : List DrawnCard) (question : Option String)
    (spread_type : String) : Option String :=
  match interpSections spread_type 0 cards with
  | none => none
  | some body =>
      some (("Reading for: " ++ questionText question ++ "\n\n" ++ body ++
        closingText).trim)

/-- The total formatter loop for a resolved spread, with the position-label
rule written out (`posLabel` via `cardSection`); `formatter` theorems relate
it to `_generate_basic_interpretation`. -/
def totalSections (spread : TarotSpread) : Nat → List DrawnCard → String
  | _, [] => ""
  | i, card_info :: rest => cardSection spread i card_info ++ totalSections spread (i + 1) rest

/-- `TarotAIService.get_ai_interpretation`: the `try` body immediately returns
`_generate_basic_interpretation(...)`; the rest of the body is a bare string
literal (the disabled AI-service call), i.e. dead code, so no network call is
modelled.  The `except Exception` clause calls
`_generate_basic_interpretation` again, whose repeated failure (`none`)
propagates out uncaught. -/
def get_ai_interpretation (cards : List DrawnCard) (question : Option String)
    (spread_type : String) : Option String :=
  match _generate_basic_interpretation cards question spread_type with
  | some s => some s
  | none => _generate_basic_interpretation cards question spread_type

/-! ## Serialization (`reading.dict()` / `json.dump` / `json.load`)

The reading store writes `json.dump(reading.dict(), f)` and reads back
`json.load(f)`.  We model a stored file by the JSON document it contains. -/

/-- JSON values, as produced by `reading.dict()` and `json` round-trips. -/
inductive Json where
  | null : Json
  | bool : Bool → Json
  | num : Int → Json
  | str : String → Json
  | arr : List Json → Json
  | obj : List (String × Json) → Json

/-- `Optional[str]` fields serialize to `null` or a string. -/
def optStrJson : Option String → Json
  | none => Json.null
  | some s => Json.str s

/-- `Optional[int]` fields serialize to `null` or a number. -/
def optIntJson : Option Int → Json
  | none => Json.null
  | some n => Json.num n

/-- `card.dict()`: the pydantic dict of a `TarotCard`, in field order. -/
def cardToJson (c : TarotCard) : Json :=
  Json.obj [
    ("name", Json.str c.name),
    ("number", optIntJson c.number),
    ("suit", optStrJson c.suit),
    ("element", optStrJson c.element),
    ("meaning_upright", Json.str c.meaning_upright),
    ("meaning_reversed", Json.str c.meaning_reversed),
    ("golden_dawn_correspondence", Json.str c.golden_dawn_correspondence),
    ("hebrew_letter", optStrJson c.hebrew_letter),
    ("astrological_correspondence", optStrJson c.astrological_correspondence),
    ("tree_of_life_path", optIntJson c.tree_of_life_path)]

/-- One `cards_drawn` entry as stored: the dict built by `draw_cards`. -/
def drawnToJson (d : DrawnCard) : Json :=
  Json.obj [
    ("card", cardToJson d.card),
    ("reversed", Json.bool d.reversed),
    ("meaning", Json.str d.meaning),
    ("orientation", Json.str d.orientation)]

/-- `reading.dict()` as written by `save_reading` (the code re-assigns
`reading_dict["timestamp"] = reading.timestamp`, which leaves the dict
unchanged since the field already is that string). -/
def readingToJson (r : TarotReading) : Json :=
  Json.obj [
    ("spread_type", Json.str r.spread_type),
    ("question", optStrJson r.question),
    ("cards_drawn", Json.arr (r.cards_drawn.map drawnToJson)),
    ("interpretation", Json.str r.interpretation),
    ("timestamp", Json.str r.timestamp),
    ("reading_id", Json.str r.reading_id)]

/-- Field access in a JSON object (first binding wins, as in a Python dict
serialized with unique keys). -/
def Json.getField : Json → String → Option Json
  | Json.obj fields, k => fields.lookup k
  | _, _ => none

/-- Modelled from the spec: §4.5 `load` "fails with `CorruptData` if the
stored content cannot be parsed back into a Reading".  The code under `src/`
returns the raw parsed dict and never reconstructs a `TarotReading`, so the
parse-back direction is taken from the spec's words: read each field of the
document, `none` on any missing or ill-typed field. -/
def strOfJson : Json → Option String
  | Json.str s => some s
  | _ => none

/-- Modelled from the spec (see `strOfJson`): optional string field. -/
def optStrOfJson : Json → Option (Option String)
  | Json.null => some none
  | Json.str s => some (some s)
  | _ => none

/-- Modelled from the spec (see `strOfJson`): optional integer field. -/
def optIntOfJson : Json → Option (Option Int)
  | Json.null => some none
  | Json.num n => some (some n)
  | _ => none

/-- Modelled from the spec (see `strOfJson`): boolean field. -/
def boolOfJson : Json → Option Bool
  | Json.bool b => some b
  | _ => none

/-- Modelled from the spec (see `strOfJson`): parse one card dict back. -/
def cardOfJson (j : Json) : Option TarotCard := do
  let name ← j.getField "name" >>= strOfJson
  let number ← j.getField "number" >>= optIntOfJson
  let suit ← j.getField "suit" >>= optStrOfJson
  let element ← j.getField "element" >>= optStrOfJson
  let mu ← j.getField "meaning_upright" >>= strOfJson
  let mr ← j.getField "meaning_reversed" >>= strOfJson
  let gdc ← j.getField "golden_dawn_correspondence" >>= strOfJson
  let hl ← j.getField "hebrew_letter" >>= optStrOfJson
  let ac ← j.getField "astrological_correspondence" >>= optStrOfJson
  let tol ← j.getField "tree_of_life_path" >>= optIntOfJson
  pure { name := name, number := number, suit := suit, element := element,
         meaning_upright := mu, meaning_reversed := mr,
         golden_dawn_correspondence := gdc, hebrew_letter := hl,
         astrological_correspondence := ac, tree_of_life_path := tol }

/-- Modelled from the spec (see `strOfJson`): parse one drawn-card dict. -/
def drawnOfJson (j : Json) : Option DrawnCard := do
  let card ← j.getField "card" >>= cardOfJson
  let rev ← j.getField "reversed" >>= boolOfJson
  let meaning ← j.getField "meaning" >>= strOfJson
  let orientation ← j.getField "orientation" >>= strOfJson
  pure { card := card, reversed := rev, meaning := meaning, orientation := orientation }

/-- Modelled from the spec (see `strOfJson`): parse a stored reading document
back into a `TarotReading`. -/
def readingOfJson (j : Json) : Option TarotReading := do
  let st ← j.getField "spread_type" >>= strOfJson
  let q ← j.getField "question" >>= optStrOfJson
  let cardsJson ← j.getField "cards_drawn"
  let cards ← match cardsJson with
    | Json.arr l => l.mapM drawnOfJson
    | _ => none
  let interp ← j.getField "interpretation" >>= strOfJson
  let ts ← j.getField "timestamp" >>= strOfJson
  let rid ← j.getField "reading_id" >>= strOfJson
  pure { spread_type := st, question := q, cards_drawn := cards,
         interpretation := interp, timestamp := ts, reading_id := rid }

/-! ## Reading store and HTTP handlers -/

/-- The readings directory: filename → stored JSON document.  A fresh binding
shadows an older one, matching overwrite-on-collision. -/
abbrev Store : Type := List (String × Json)

/-- `Exception`s surfaced to FastAPI: status code and detail. -/
structure HTTPException where
  status_code : Nat
  detail : String
deriving DecidableEq, Repr

/-- Starlette's `HTTPException.__str__`: `f"{self.status_code}: {self.detail}"`,
the `str(e)` the handlers attach to their re-raised 500s. -/
def strOfHTTPException (e : HTTPException) : String :=
  toString e.status_code ++ ": " ++ e.detail

/-- `TarotAIService.save_reading`: writes the serialized reading dict to the
file `f"{reading.reading_id}.json"` (I/O failure, which would re-raise, is
outside the model: a write that happens succeeds). -/
def save_reading (store : Store) (reading : TarotReading) : Store :=
  (reading.reading_id ++ ".json", readingToJson reading) :: store

/-- The `GET /reading/{reading_id}` handler `get_reading`.  When the file is
missing the code raises `HTTPException(404, "Reading not found")` inside the
`try` block; that exception is not a `FileNotFoundError`, so it falls to the
handler's own `except Exception as e` clause, which re-raises it as
`HTTPException(500, str(e))`.  On success the handler returns
`{"reading": reading_data}`. -/
def get_reading (store : Store) (reading_id : String) : Except HTTPException Json :=
  match store.lookup (reading_id ++ ".json") with
  | none =>
      Except.error { status_code := 500,
                     detail := strOfHTTPException { status_code := 404, detail := "Reading not found" } }
  | some reading_data => Except.ok (Json.obj [("reading", reading_data)])

/-- The `POST /reading` handler `create_reading`.  Randomness and the clock
are parameters: `sample`/`coins` feed `draw_cards`, `ts` is the
`datetime.now(timezone.utc).isoformat()` string and `rid` the generated
`reading_id`.  An unknown `spread_type` raises `HTTPException(400, ...)`
inside the `try` block; `HTTPException` subclasses `Exception`, so the
handler's own `except Exception as e` catches it and re-raises
`HTTPException(500, str(e))`.  On success the handler returns the reading and
the updated store.  The `none` branch of `get_ai_interpretation` models the
`KeyError` a non-registered spread would raise there; it is unreachable
because membership in `TAROT_SPREADS` was already checked. -/
def create_reading (store : Store) (request : ReadingRequest)
    (sample : Nat → List TarotCard) (coins : Nat → Bool)
    (ts : String) (rid : String) : Except HTTPException (TarotReading × Store) :=
  match spreadLookup request.spread_type with
  | none =>
      Except.error { status_code := 500,
                     detail := strOfHTTPException
                       { status_code := 400,
                         detail := "Unknown spread type: " ++ request.spread_type } }
  | some spread =>
      let cards_drawn := draw_cards spread.card_count request.include_reversed sample coins
      match get_ai_interpretation cards_drawn request.question request.spread_type with
      | none =>
          Except.error { status_code := 500,
                         detail := "\x27" ++ request.spread_type ++ "\x27" }
      | some interpretation =>
          let reading : TarotReading :=
            { spread_type := request.spread_type
              question := request.question
              cards_drawn := cards_drawn
              interpretation := interpretation
              timestamp := ts
              reading_id := rid }
          Except.ok (reading, save_reading store reading)

/-! ## Helper lemmas -/

/-- The catalog defined in the source has 17 cards (13 major arcana and the
four aces; the remaining cards are only a code comment). -/
theorem get_all_cards_length : get_all_cards.length = 17 := rfl

/-- All card names in the catalog are pairwise distinct. -/
theorem get_all_cards_names_nodup :
    (get_all_cards.map (fun c => c.name)).Nodup := by decide

/-- The clamp of `draw_cards` computes `min count catalog-size`. -/
theorem clampCount_eq_min (count : Nat) :
    clampCount count = min count get_all_cards.length := by
  unfold clampCount
  split <;> omega

/-- The clamped count is always a valid sample size. -/
theorem clampCount_le (count : Nat) : clampCount count ≤ get_all_cards.length := by
  unfold clampCount
  split <;> omega

/-- The concrete sampler `takeSample` satisfies the `random.sample` contract. -/
theorem takeSample_ok : SampleOk takeSample := by
  intro k hk
  constructor
  · simpa [takeSample] using Nat.min_eq_left hk
  · exact (List.take_sublist k get_all_cards).subperm

/-- `draw_cards` returns one entry per sampled card. -/
theorem draw_cards_length (count : Nat) (include_reversed : Bool)
    (sample : Nat → List TarotCard) (coins : Nat → Bool) (hs : SampleOk sample) :
    (draw_cards count include_reversed sample coins).length
      = min count get_all_cards.length := by
  have h := (hs (clampCount count) (clampCount_le count)).1
  simpa [draw_cards, clampCount_eq_min] using h

/-- The card names of a draw are the names of the sampled cards, in order. -/
theorem draw_cards_names (count : Nat) (include_reversed : Bool)
    (sample : Nat → List TarotCard) (coins : Nat → Bool) :
    (draw_cards count include_reversed sample coins).map (fun d => d.card.name)
      = (sample (clampCount count)).map (fun c => c.name) := by
  unfold draw_cards
  rw [List.mapIdx_eq_enum_map, List.map_map]
  conv_rhs => rw [← List.enum_map_snd (sample (clampCount count)), List.map_map]
  rfl

/-- Sampling without replacement from a catalog with distinct names yields
distinct names. -/
theorem subperm_names_nodup (l : List TarotCard)
    (h : List.Subperm l get_all_cards) :
    (l.map (fun c => c.name)).Nodup := by
  rcases h with ⟨t, hperm, hsub⟩
  have hdeck := get_all_cards_names_nodup
  have ht : (t.map (fun c => c.name)).Nodup :=
    (hsub.map (fun c => c.name)).nodup hdeck
  exact ((hperm.map (fun c => c.name)).nodup_iff).mp ht

/-- A value found by `List.lookup` is one of the list's values. -/
theorem lookup_snd_mem {α β : Type} [BEq α] :
    ∀ (l : List (α × β)) (k : α) (v : β), l.lookup k = some v → v ∈ l.map Prod.snd := by
  intro l
  induction l with
  | nil => intro k v h; simp [List.lookup] at h
  | cons p t ih =>
      intro k v h
      obtain ⟨a, b⟩ := p
      rw [List.lookup_cons] at h
      cases hk : k == a with
      | false =>
          simp only [hk] at h
          exact List.mem_cons_of_mem _ (ih k v h)
      | true =>
          simp only [hk] at h
          cases h
          simp

/-- Every registered spread requests at most as many cards as the catalog
holds. -/
theorem spread_count_le (st : String) (spread : TarotSpread)
    (h : spreadLookup st = some spread) :
    spread.card_count ≤ get_all_cards.length := by
  have hmem := lookup_snd_mem TAROT_SPREADS st spread h
  have hall : ∀ s ∈ TAROT_SPREADS.map Prod.snd,
      s.card_count ≤ get_all_cards.length := by decide
  exact hall spread hmem

/-- With a registered spread, the formatter loop never raises and produces
exactly the `totalSections` text. -/
theorem interpSections_eq_total (st : String) (spread : TarotSpread)
    (h : spreadLookup st = some spread) :
    ∀ (cards : List DrawnCard) (i : Nat),
      interpSections st i cards = some (totalSections spread i cards) := by
  intro cards
  induction cards with
  | nil => intro i; rfl
  | cons c rest ih =>
      intro i
      simp [interpSections, totalSections, h, ih (i + 1)]

/-- With a registered spread, `_generate_basic_interpretation` succeeds and
equals the header, the per-card sections and the closing paragraph,
stripped. -/
theorem basic_interpretation_total (st : String) (spread : TarotSpread)
    (h : spreadLookup st = some spread)
    (cards : List DrawnCard) (question : Option String) :
    _generate_basic_interpretation cards question st =
      some (("Reading for: " ++ questionText question ++ "\n\n" ++
        totalSections spread 0 cards ++ closingText).trim) := by
  rw [_generate_basic_interpretation, interpSections_eq_total st spread h cards 0]

/-- A serialized card parses back to the same card. -/
theorem card_roundtrip (c : TarotCard) : cardOfJson (cardToJson c) = some c := by
  obtain ⟨name, number, suit, element, mu, mr, gdc, hl, ac, tol⟩ := c
  cases number <;> cases suit <;> cases element <;> cases hl <;> cases ac <;>
    cases tol <;> rfl

/-- A serialized drawn-card entry parses back to the same entry. -/
theorem drawn_roundtrip (d : DrawnCard) : drawnOfJson (drawnToJson d) = some d := by
  obtain ⟨card, rev, meaning, orientation⟩ := d
  simp [drawnOfJson, drawnToJson, Json.getField, List.lookup, card_roundtrip,
    strOfJson, boolOfJson]

/-- The accumulator form of the `cards_drawn` list round trip. -/
theorem drawn_loop_roundtrip (l : List DrawnCard) :
    ∀ acc : List DrawnCard,
      List.mapM.loop drawnOfJson (l.map drawnToJson) acc = some (acc.reverse ++ l) := by
  induction l with
  | nil => intro acc; simp [List.mapM.loop]
  | cons d t ih =>
      intro acc
      simp [List.mapM.loop, drawn_roundtrip, ih (d :: acc)]

/-- A serialized `cards_drawn` list parses back to the same list. -/
theorem drawn_list_roundtrip (l : List DrawnCard) :
    (l.map drawnToJson).mapM drawnOfJson = some l := by
  simpa [List.mapM] using drawn_loop_roundtrip l []

/-- A serialized reading parses back to the same reading, every field
preserved. -/
theorem reading_roundtrip (r : TarotReading) :
    readingOfJson (readingToJson r) = some r := by
  obtain ⟨st, q, cards, interp, ts, rid⟩ := r
  cases q <;>
    simp [readingOfJson, readingToJson, Json.getField, List.lookup, strOfJson,
      optStrJson, optStrOfJson, drawn_list_roundtrip, drawn_loop_roundtrip]

/-! ## Claim theorems -/

/-- C3: for every non-negative count and orientation flag, `draw_cards`
returns an ordered sequence of exactly `min count (catalog size)` drawn cards
whose card names are pairwise distinct, raising no error even when the count
exceeds the catalog size.  `sample`/`coins` are the explicit random sources;
`hs` is the documented contract of `random.sample`. -/
theorem draw_cards_length_and_distinct (count : Nat) (include_reversed : Bool)
    (sample : Nat → List TarotCard) (coins : Nat → Bool) (hs : SampleOk sample) :
    (draw_cards count include_reversed sample coins).length
        = min count get_all_cards.length ∧
    ((draw_cards count include_reversed sample coins).map
        (fun d => d.card.name)).Nodup := by
  constructor
  · exact draw_cards_length count include_reversed sample coins hs
  · rw [draw_cards_names]
    exact subperm_names_nodup _ ((hs (clampCount count) (clampCount_le count)).2)

/-- Witness for C3 at `count = 30 > 17`: the draw is clamped to the whole
catalog and all names are distinct. -/
theorem draw_cards_length_and_distinct_witness :
    (draw_cards 30 true takeSample (fun i => i % 2 == 0)).length
        = min 30 get_all_cards.length ∧
    ((draw_cards 30 true takeSample (fun i => i % 2 == 0)).map
        (fun d => d.card.name)).Nodup :=
  draw_cards_length_and_distinct 30 true takeSample (fun i => i % 2 == 0) takeSample_ok

/-- C4: with `include_reversed = false`, every drawn card comes out with
`reversed = false`, orientation `"Upright"`, and its meaning resolved to the
card's upright meaning. -/
theorem draw_cards_upright (count : Nat) (sample : Nat → List TarotCard)
    (coins : Nat → Bool) (d : DrawnCard)
    (hd : d ∈ draw_cards count false sample coins) :
    d.reversed = false ∧ d.orientation = "Upright" ∧
      d.meaning = d.card.meaning_upright := by
  unfold draw_cards at hd
  rw [List.mapIdx_eq_enum_map] at hd
  rcases List.mem_map.mp hd with ⟨p, _, rfl⟩
  exact ⟨rfl, rfl, rfl⟩

/-- Witness for C4: the first card of a concrete upright-only draw. -/
theorem draw_cards_upright_witness :
    (draw_cards 1 false takeSample (fun _ => true)).headI.reversed = false ∧
    (draw_cards 1 false takeSample (fun _ => true)).headI.orientation = "Upright" ∧
    (draw_cards 1 false takeSample (fun _ => true)).headI.meaning
      = (draw_cards 1 false takeSample (fun _ => true)).headI.card.meaning_upright :=
  draw_cards_upright 1 takeSample (fun _ => true) _ (by decide)

/-- C6: every registered spread's stated `card_count` equals the length of its
`positions` list; in particular `celtic_cross` has count 10 and exactly 10
position labels. -/
theorem spreads_card_count_matches_positions :
    ((TAROT_SPREADS.all fun p => p.2.card_count == p.2.positions.length) = true) ∧
    (spreadLookup "celtic_cross").map (fun s => (s.card_count, s.positions.length))
      = some (10, 10) := by decide

/-- C7: the interpretation formatter is pure and deterministic — two calls on
identical drawn-card sequences, questions and spread types produce identical
output text. -/
theorem basic_interpretation_deterministic
    (cards cards' : List DrawnCard) (question question' : Option String)
    (st st' : String) (h1 : cards = cards') (h2 : question = question')
    (h3 : st = st') :
    _generate_basic_interpretation cards question st
      = _generate_basic_interpretation cards' question' st' := by
  subst h1; subst h2; subst h3; rfl

/-- Witness for C7 at concrete equal inputs. -/
theorem basic_interpretation_deterministic_witness :
    _generate_basic_interpretation [] (some "What lies ahead") "three_card"
      = _generate_basic_interpretation [] (some "What lies ahead") "three_card" :=
  basic_interpretation_deterministic [] [] (some "What lies ahead")
    (some "What lies ahead") "three_card" "three_card" rfl rfl rfl

/-- C8: for every drawn-card sequence (even one longer than the position
list), question, and registered spread, the formatter never fails: it returns
the header, one `cardSection` per card — whose label `posLabel` is
`spread.positions[i]` when `i < len(positions)` and the synthesized
`"Position {i+1}"` otherwise — and the closing paragraph. -/
theorem formatter_never_fails (st : String) (spread : TarotSpread)
    (h : spreadLookup st = some spread)
    (cards : List DrawnCard) (question : Option String) :
    _generate_basic_interpretation cards question st =
      some (("Reading for: " ++ questionText question ++ "\n\n" ++
        totalSections spread 0 cards ++ closingText).trim) :=
  basic_interpretation_total st spread h cards question

/-- Witness for C8: a two-card draw formatted against the one-position
`single_card` spread (the second card takes the fallback label). -/
theorem formatter_never_fails_witness :
    _generate_basic_interpretation (draw_cards 2 false takeSample (fun _ => false))
        none "single_card" =
      some (("Reading for: " ++ questionText none ++ "\n\n" ++
        totalSections single_card_spread 0
          (draw_cards 2 false takeSample (fun _ => false)) ++ closingText).trim) :=
  formatter_never_fails "single_card" single_card_spread rfl
    (draw_cards 2 false takeSample (fun _ => false)) none

/-- C10: for every drawn-card sequence, question and registered spread type,
`get_ai_interpretation` returns exactly the text of
`_generate_basic_interpretation` on the same inputs — the AI/network branch is
dead code inside a string literal, so no call is modelled in the active
path. -/
theorem get_ai_interpretation_eq_basic (cards : List DrawnCard)
    (question : Option String) (st : String) (spread : TarotSpread)
    (_h : spreadLookup st = some spread) :
    get_ai_interpretation cards question st
      = _generate_basic_interpretation cards question st := by
  cases hg : _generate_basic_interpretation cards question st <;>
    simp [get_ai_interpretation, hg]

/-- Witness for C10 at concrete inputs. -/
theorem get_ai_interpretation_eq_basic_witness :
    get_ai_interpretation [] none "golden_dawn"
      = _generate_basic_interpretation [] none "golden_dawn" :=
  get_ai_interpretation_eq_basic [] none "golden_dawn" golden_dawn_spread rfl

/-- C5: every reading built by `create_reading` for a registered spread draws
exactly `spread.card_count` cards (and names that spread); since every
registered spread's count is at most the catalog size, the clamp in
`draw_cards` never shortens the draw. -/
theorem create_reading_card_count (store : Store) (request : ReadingRequest)
    (sample : Nat → List TarotCard) (coins : Nat → Bool) (ts rid : String)
    (spread : TarotSpread)
    (hspread : spreadLookup request.spread_type = some spread)
    (hs : SampleOk sample) :
    (create_reading store request sample coins ts rid).toOption.map
        (fun p => (p.1.spread_type, p.1.cards_drawn.length))
      = some (request.spread_type, spread.card_count)
    ∧ spread.card_count ≤ get_all_cards.length := by
  have hle := spread_count_le request.spread_type spread hspread
  refine ⟨?_, hle⟩
  have hgen := basic_interpretation_total request.spread_type spread hspread
    (draw_cards spread.card_count request.include_reversed sample coins)
    request.question
  have hai : get_ai_interpretation
      (draw_cards spread.card_count request.include_reversed sample coins)
      request.question request.spread_type
      = some (("Reading for: " ++ questionText request.question ++ "\n\n" ++
          totalSections spread 0
            (draw_cards spread.card_count request.include_reversed sample coins) ++
          closingText).trim) := by
    simp only [get_ai_interpretation, hgen]
  simp only [create_reading, hspread, hai, Except.toOption]
  simp [draw_cards_length spread.card_count request.include_reversed sample coins hs,
    Nat.min_eq_left hle]

/-- Witness for C5 at the default `three_card` request. -/
theorem create_reading_card_count_witness :
    (create_reading ([] : Store) {} takeSample (fun _ => false) "t" "r").toOption.map
        (fun p => (p.1.spread_type, p.1.cards_drawn.length))
      = some ("three_card", 3)
    ∧ 3 ≤ get_all_cards.length :=
  create_reading_card_count ([] : Store) {} takeSample (fun _ => false) "t" "r"
    three_card_spread rfl takeSample_ok

/-- C1 (documenting the divergence): a `POST /reading` with an unregistered
`spread_type` makes `create_reading` raise `HTTPException(400, "Unknown spread
type: ...")`, but the handler's own `except Exception` clause catches that
`HTTPException` and re-raises it as a *500* carrying `str(e)`; no reading is
returned or saved (the store is only extended on the `Except.ok` path). -/
theorem create_reading_unknown_spread_masked_as_500 (store : Store)
    (sample : Nat → List TarotCard) (coins : Nat → Bool) (ts rid : String) :
    create_reading store { spread_type := "nonexistent" } sample coins ts rid
      = Except.error { status_code := 500,
                       detail := "400: Unknown spread type: nonexistent" } := rfl

/-- C2 (documenting the divergence): `GET /reading/{id}` for a missing file
raises `HTTPException(404, "Reading not found")` inside the `try` block; that
exception is not a `FileNotFoundError`, so it falls through to the handler's
`except Exception` clause and is re-raised as a *500* carrying `str(e)` — the
not-found outcome IS masked as a server error. -/
theorem get_reading_missing_masked_as_500 (store : Store) (reading_id : String)
    (h : store.lookup (reading_id ++ ".json") = none) :
    get_reading store reading_id
      = Except.error { status_code := 500, detail := "404: Reading not found" } := by
  unfold get_reading
  rw [h]
  rfl

/-- Witness for C2: an empty store and a never-saved identifier. -/
theorem get_reading_missing_masked_as_500_witness :
    get_reading ([] : Store) "reading_20250101_000000_1234"
      = Except.error { status_code := 500, detail := "404: Reading not found" } :=
  get_reading_missing_masked_as_500 [] "reading_20250101_000000_1234" rfl

/-- C9: saving a well-formed reading and loading it back by its identifier
returns exactly the stored document of that reading, and the document
determines every field of the original reading (spread type, question, the
ordered drawn cards, interpretation, timestamp string and identifier). -/
theorem save_then_load_roundtrip (store : Store) (reading : TarotReading) :
    get_reading (save_reading store reading) reading.reading_id
        = Except.ok (Json.obj [("reading", readingToJson reading)])
    ∧ readingOfJson (readingToJson reading) = some reading := by
  constructor
  · simp [get_reading, save_reading, List.lookup_cons]
  · exact reading_roundtrip reading

end TarotMain
